import Mathlib

/-!
# Verification of the connectrpc validate-go interceptor

A shallow embedding of the request-validation interceptor for the Connect RPC
framework (package `validate`).  The repository contains two variants of the
package: the primary `interceptor.go`, and a second variant (an unnamed source
file, called `P1` below) that differs in the shape of `NewInterceptor`, in the
envelope handling inside `validate`, and in the order of operations inside the
streaming handler `Receive`.

External collaborators (the protovalidate engine, connect's error-detail
serialization) are modelled as parameters: the engine is a function from
messages to outcomes, and detail serialization is a success predicate supplied
by an environment record.  Hooks are instrumented to also return the list of
engine invocations, the list of next-stage / connection invocations, and the
number of envelope unwraps, so that claims of the form "the next stage is never
invoked" or "unwrapped exactly once" are directly expressible.
-/

namespace ConnectValidate

/-- One failed constraint, as produced by the validation engine:
field path, constraint identifier and human-readable message. -/
structure Violation where
  fieldPath : String
  constraintId : String
  message : String
deriving DecidableEq, Repr

/-- Modelled from the spec: the engine's `ValidationError` (protovalidate-go,
external to `src/`), an aggregate of the constraint violations; `ToProto`
exposes exactly this ordered list. -/
structure ValidationError where
  violations : List Violation
deriving DecidableEq, Repr

/-- The wire payload of one connect error detail: here, the serialized
`ValidationError`, carrying the full ordered violation list. -/
structure ErrorDetail where
  violations : List Violation
deriving DecidableEq, Repr

/-- Connect status codes (only the ones the development touches). -/
inductive Code where
  | invalidArgument
  | internal
  | unknown
  | unimplemented
deriving DecidableEq, Repr

/-- A connect status-coded error: code, message and attached details
(`connect.Error`). -/
structure ConnectError where
  code : Code
  message : String
  details : List ErrorDetail
deriving DecidableEq, Repr

/-- Go `error` values that flow through the interceptor: a status-coded connect
error, the engine's `ValidationError`, or a plain (`fmt.Errorf`) error. -/
inductive GoError where
  | connectError (ce : ConnectError)
  | validationError (ve : ValidationError)
  | plain (msg : String)
deriving DecidableEq, Repr

/-- `errors.As(err, &validationErr)`: recover a `*ValidationError` from an
error value. -/
def asValidationError : GoError → Option ValidationError
  | .validationError ve => some ve
  | _ => none

/-- A single line of the engine's summary message:
`<field_path>: <message> [<constraint_id>]`. -/
def violationLine (v : Violation) : String :=
  v.fieldPath ++ ": " ++ v.message ++ " [" ++ v.constraintId ++ "]"

/-- Concatenation of a list of strings (no separator). -/
def joinAll : List String → String
  | [] => ""
  | s :: ss => s ++ joinAll ss

/-- Modelled from the spec: the message of the engine's `ValidationError`
(protovalidate-go's `Error()`, external to `src/`) — `"validation error:"`
followed, for each violation, by a newline and ` - <field_path>: <message>
[<constraint_id>]`. -/
def validationErrorMessage (vs : List Violation) : String :=
  "validation error:" ++ joinAll (vs.map fun v => "\n - " ++ violationLine v)

/-- `err.Error()` for the error values above.  A connect error's own message
field is returned for the `connectError` shape; the other two shapes are the
ones the interceptor actually formats. -/
def goMessage : GoError → String
  | .connectError ce => ce.message
  | .validationError ve => validationErrorMessage ve.violations
  | .plain s => s

/-- A protocol buffer message, identified by its concrete runtime type name and
an identity tag distinguishing message values. -/
structure ProtoMsg where
  typeName : String
  id : Nat
deriving DecidableEq, Repr

/-- The outcome of the engine's `Validate(message)`: success, or an error value
(which is a `ValidationError` for constraint violations, and may be another
error for internal engine failures such as constraint compilation). -/
inductive ValidateOutcome where
  | ok
  | err (e : GoError)

/-- The validation engine (`*protovalidate.Validator`), opaque: a function from
messages to outcomes. -/
def Validator := ProtoMsg → ValidateOutcome

/-- An arbitrary Go value (`any`) presented at a hook point: a protocol
message, a framework request envelope (`connect.AnyRequest`, whose `Any()`
yields the wrapped value), or anything else, identified by its runtime type
name. -/
inductive AnyValue where
  | protoMsg (m : ProtoMsg)
  | anyRequest (inner : AnyValue)
  | otherVal (typeName : String)
deriving DecidableEq, Repr

/-- The `%T` of a value: its concrete runtime type name. -/
def typeNameOf : AnyValue → String
  | .protoMsg m => m.typeName
  | .anyRequest _ => "*connect.Request"
  | .otherVal tn => tn

/-- The environment of external collaborators: whether
`connect.NewErrorDetail` succeeds on a given serialized violation list, and the
result of `protovalidate.New()` (the default engine constructor). -/
structure Env where
  marshalOk : List Violation → Bool
  protovalidateNew : Except GoError Validator

/-- `connect.NewErrorDetail(validationErr.ToProto())`: wraps the violation list
into a detail, failing exactly when marshalling fails; on success the detail
holds exactly the serialized message's content. -/
def newErrorDetail (env : Env) (vs : List Violation) : Option ErrorDetail :=
  if env.marshalOk vs then some ⟨vs⟩ else none

/-- The error built by both variants when the engine's `Validate` returns an
error `e`: `connect.NewError(connect.CodeInvalidArgument, err)`, with the
serialized `ValidationError` added as a detail when `errors.As` recovers one
and detail construction succeeds (`interceptor.go` lines 156–163). -/
def buildInvalidArgument (env : Env) (e : GoError) : ConnectError :=
  let out : ConnectError := { code := .invalidArgument, message := goMessage e, details := [] }
  match asValidationError e with
  | some ve =>
    match newErrorDetail env ve.violations with
    | some d => { out with details := out.details ++ [d] }
    | none => out
  | none => out

/-- Instrumented result of a call to `validate`: the returned error (`none` =
nil), the messages the engine was invoked on, in order, and the number of
envelope unwraps performed. -/
structure VResult where
  err : Option GoError
  engineCalls : List ProtoMsg
  unwraps : Nat
deriving DecidableEq, Repr

/-- `validate(validator, msg)` of the primary variant (`interceptor.go` lines
150–166): a non-`proto.Message` value yields a plain error naming its runtime
type; otherwise the engine runs and any engine error is wrapped by
`buildInvalidArgument`. -/
def validate (env : Env) (val : Validator) (msg : AnyValue) : VResult :=
  match msg with
  | .protoMsg m =>
    match val m with
    | .ok => { err := none, engineCalls := [m], unwraps := 0 }
    | .err e =>
      { err := some (.connectError (buildInvalidArgument env e)), engineCalls := [m], unwraps := 0 }
  | other =>
    { err := some (.plain ("message is not a proto.Message: " ++ typeNameOf other)),
      engineCalls := [], unwraps := 0 }

/-- `validate(validator, msg)` of the `P1` variant (unnamed source file, lines
112–131): a `connect.AnyRequest` envelope is unwrapped via `Any()` and
`validate` recurses on the wrapped value; a `proto.Message` is validated as in
the primary variant; anything else yields a plain error naming its runtime
type. -/
def validateP1 (env : Env) (val : Validator) : AnyValue → VResult
  | .anyRequest inner =>
    let r := validateP1 env val inner
    { r with unwraps := r.unwraps + 1 }
  | .protoMsg m =>
    match val m with
    | .ok => { err := none, engineCalls := [m], unwraps := 0 }
    | .err e =>
      { err := some (.connectError (buildInvalidArgument env e)), engineCalls := [m], unwraps := 0 }
  | .otherVal tn =>
    { err := some (.plain ("unsupported message type " ++ tn)), engineCalls := [], unwraps := 0 }

/-- A `connect.AnyRequest` as presented to the unary hook: `Any()` returns the
wrapped payload. -/
structure Request where
  payload : AnyValue
deriving DecidableEq, Repr

/-- What a unary call returns: `(connect.AnyResponse, error)`. -/
structure UnaryOutcome where
  response : Option AnyValue
  err : Option GoError
deriving DecidableEq, Repr

/-- Instrumented result of the wrapped unary function: its outcome, the
requests the next stage was invoked with (in order), and the messages the
engine was invoked on. -/
structure UnaryResult where
  outcome : UnaryOutcome
  nextCalls : List Request
  engineCalls : List ProtoMsg
deriving Repr

/-- The function `WrapUnary` returns (`interceptor.go` lines 95–102): validate
`req.Any()`; on a validation error return `(nil, err)` without invoking `next`;
otherwise return `next(ctx, req)` unchanged. -/
def wrapUnary (env : Env) (val : Validator) (next : Request → UnaryOutcome) (req : Request) :
    UnaryResult :=
  let v := validate env val req.payload
  match v.err with
  | some e =>
    { outcome := { response := none, err := some e }, nextCalls := [], engineCalls := v.engineCalls }
  | none => { outcome := next req, nextCalls := [req], engineCalls := v.engineCalls }

/-- The underlying streaming client connection, reduced to its `Send`
behaviour: the error (or nil) it returns for a transmitted message. -/
structure ClientConn where
  sendResult : AnyValue → Option GoError

/-- Instrumented result of the wrapped `Send`: returned error, the messages
actually transmitted to the underlying connection (in order), and the engine
invocations. -/
structure SendResult where
  err : Option GoError
  sent : List AnyValue
  engineCalls : List ProtoMsg

/-- `streamingClientInterceptor.Send` (`interceptor.go` lines 130–135):
validate the message; on a validation error return it without transmitting;
otherwise delegate to the underlying connection's `Send` and return its
result. -/
def streamingClientSend (env : Env) (val : Validator) (conn : ClientConn) (msg : AnyValue) :
    SendResult :=
  let v := validate env val msg
  match v.err with
  | some e => { err := some e, sent := [], engineCalls := v.engineCalls }
  | none => { err := conn.sendResult msg, sent := [msg], engineCalls := v.engineCalls }

/-- The underlying streaming handler connection, reduced to its `Receive`
behaviour: the error (or nil) it returns, and the decoded message it writes
into the buffer on success. -/
structure HandlerConn where
  recvErr : Option GoError
  recvMsg : AnyValue

/-- Instrumented result of the wrapped `Receive`: returned error, how many
times the underlying connection's `Receive` ran, the buffer content
afterwards, and the engine invocations. -/
structure ReceiveResult where
  err : Option GoError
  recvCalls : Nat
  bufAfter : AnyValue
  engineCalls : List ProtoMsg
deriving DecidableEq, Repr

/-- `streamingHandlerInterceptor.Receive` of the primary variant
(`interceptor.go` lines 143–148): delegate to the underlying connection's
`Receive` first; if it fails, return its error unchanged without validating;
otherwise validate the decoded message and return the validation result. -/
def streamingHandlerReceive (env : Env) (val : Validator) (conn : HandlerConn) (buf : AnyValue) :
    ReceiveResult :=
  match conn.recvErr with
  | some e => { err := some e, recvCalls := 1, bufAfter := buf, engineCalls := [] }
  | none =>
    let v := validate env val conn.recvMsg
    { err := v.err, recvCalls := 1, bufAfter := conn.recvMsg, engineCalls := v.engineCalls }

/-- `streamingHandlerInterceptor.Receive` of the `P1` variant (unnamed source
file, lines 105–110): validate the passed-in buffer first; on a validation
error return it without invoking the underlying `Receive`; otherwise delegate
to the underlying connection's `Receive` and return its result (the decoded
message is not validated). -/
def streamingHandlerReceiveP1 (env : Env) (val : Validator) (conn : HandlerConn) (buf : AnyValue) :
    ReceiveResult :=
  let v := validateP1 env val buf
  match v.err with
  | some e => { err := some e, recvCalls := 0, bufAfter := buf, engineCalls := v.engineCalls }
  | none =>
    match conn.recvErr with
    | some e => { err := some e, recvCalls := 1, bufAfter := buf, engineCalls := v.engineCalls }
    | none => { err := none, recvCalls := 1, bufAfter := conn.recvMsg, engineCalls := v.engineCalls }

/-- The `Interceptor` struct of the primary variant: it holds the
`*protovalidate.Validator` (a Go pointer, hence possibly nil before
construction finishes). -/
structure Interceptor where
  validator : Option Validator

/-- A functional option for `NewInterceptor` (primary variant). -/
def InterceptorOption := Interceptor → Interceptor

/-- `WithValidator` (`interceptor.go` lines 88–92): sets the interceptor's
validator to the supplied engine. -/
def withValidator (v : Validator) : InterceptorOption :=
  fun i => { i with validator := some v }

/-- `NewInterceptor` of the primary variant (`interceptor.go` lines 69–84):
apply the options to a zero-value interceptor; if no validator was supplied,
construct the default engine via `protovalidate.New()`, propagating its error;
otherwise return the interceptor. -/
def newInterceptor (env : Env) (opts : List InterceptorOption) : Except GoError Interceptor :=
  let out := opts.foldl (fun i o => o i) { validator := none }
  match out.validator with
  | some _ => .ok out
  | none =>
    match env.protovalidateNew with
    | .ok v => .ok { out with validator := some v }
    | .error e => .error e

/-- The `streamingClientInterceptor` struct: the validator it closes over and
the wrapped connection (`interceptor.go` lines 124–128). -/
structure StreamingClientHook where
  validator : Option Validator
  conn : ClientConn

/-- `WrapStreamingClient` builds the client hook around the connection
produced by `next`, sharing the interceptor's validator (`interceptor.go`
lines 105–112). -/
def Interceptor.wrapStreamingClient (i : Interceptor) (conn : ClientConn) : StreamingClientHook :=
  { validator := i.validator, conn := conn }

/-- The `streamingHandlerInterceptor` struct: the validator it closes over and
the wrapped connection (`interceptor.go` lines 137–141). -/
structure StreamingHandlerHook where
  validator : Option Validator
  conn : HandlerConn

/-- `WrapStreamingHandler` builds the handler hook around the framework's
connection, sharing the interceptor's validator (`interceptor.go` lines
115–122). -/
def Interceptor.wrapStreamingHandler (i : Interceptor) (conn : HandlerConn) :
    StreamingHandlerHook :=
  { validator := i.validator, conn := conn }

/-- Lines joined by newlines, following the spec's description of the summary
message ("one line per violation"). -/
def specJoinLines : List String → String
  | [] => ""
  | [l] => l
  | l :: ls => l ++ "\n" ++ specJoinLines ls

/-! ### Concrete fixtures

Concrete engines, environments and connections used to instantiate the
theorems on executable inputs.  The violations mirror the repository's own
test expectations. -/

/-- The violation from the repository's range-constraint test scenario. -/
def vioRange : Violation :=
  { fieldPath := "number", constraintId := "int64.gt_lt",
    message := "value must be greater than 0 and less than 100" }

/-- The violation from the repository's required-field test scenario. -/
def vioRequired : Violation :=
  { fieldPath := "number", constraintId := "required", message := "value is required" }

/-- A message every constraint accepts. -/
def msgOk : ProtoMsg := { typeName := "*pingv1.PingRequest", id := 0 }

/-- A message violating the range constraint. -/
def msgBad : ProtoMsg := { typeName := "*pingv1.PingRequest", id := 1 }

/-- A message violating both fixture constraints. -/
def msgBad2 : ProtoMsg := { typeName := "*pingv1.PingRequest", id := 2 }

/-- A message on which the engine fails internally (not a constraint
violation). -/
def msgBoom : ProtoMsg := { typeName := "*pingv1.PingRequest", id := 3 }

/-- A concrete engine: accepts `msgOk`, reports one violation on `msgBad`, two
on `msgBad2`, and an internal (non-validation) failure on everything else. -/
def valFix : Validator := fun m =>
  if m.id = 0 then .ok
  else if m.id = 1 then .err (.validationError { violations := [vioRange] })
  else if m.id = 2 then .err (.validationError { violations := [vioRequired, vioRange] })
  else .err (.plain "unable to compile constraints")

/-- Environment in which detail serialization always succeeds and the default
engine constructor yields `valFix`. -/
def envOkFix : Env := { marshalOk := fun _ => true, protovalidateNew := .ok valFix }

/-- Environment in which detail serialization always fails. -/
def envNoMarshal : Env := { marshalOk := fun _ => false, protovalidateNew := .ok valFix }

/-- Environment in which the default engine constructor fails. -/
def envNewFails : Env :=
  { marshalOk := fun _ => true,
    protovalidateNew := .error (.plain "failed to build default validator") }

/-- The status-coded error `validate` produces for `msgBad` under `valFix`
when detail serialization succeeds. -/
def invalidArgFix : GoError :=
  .connectError
    { code := .invalidArgument, message := validationErrorMessage [vioRange],
      details := [{ violations := [vioRange] }] }

/-- A next stage that fails with an unrelated internal error. -/
def nextInternalErr : Request → UnaryOutcome := fun _ =>
  { response := none,
    err := some (.connectError { code := .internal, message := "oh no", details := [] }) }

/-- An underlying client connection that accepts everything it is given. -/
def clientConnOk : ClientConn := { sendResult := fun _ => none }

/-- An underlying handler connection whose `Receive` fails with an end-of-stream
style error. -/
def handlerConnEOF : HandlerConn :=
  { recvErr := some (.plain "EOF"), recvMsg := .protoMsg msgOk }

/-- An underlying handler connection that successfully decodes a message
violating a constraint. -/
def handlerConnDecodesBad : HandlerConn := { recvErr := none, recvMsg := .protoMsg msgBad }

/-- An underlying handler connection that successfully decodes a valid
message. -/
def handlerConnDecodesOk : HandlerConn := { recvErr := none, recvMsg := .protoMsg msgOk }

/-! ### Helper lemmas -/

/-- Prepending `"\n - "` to each line and concatenating equals appending one
newline and then joining the ` - `-prefixed lines with newlines. -/
theorem joinAll_newline_lines (pre l : String) (ls : List String) :
    pre ++ joinAll ((l :: ls).map fun s => "\n - " ++ s) =
      (pre ++ "\n") ++ specJoinLines ((l :: ls).map fun s => " - " ++ s) := by
  induction ls generalizing pre l with
  | nil =>
    show pre ++ ("\n - " ++ l ++ joinAll []) = (pre ++ "\n") ++ (" - " ++ l)
    simp only [joinAll, String.append_empty, String.append_assoc]
    congr 1
  | cons l2 ls2 ih =>
    have step := ih (pre ++ ("\n - " ++ l)) l2
    show pre ++ ("\n - " ++ l ++ joinAll ((l2 :: ls2).map fun s => "\n - " ++ s)) =
      (pre ++ "\n") ++ ((" - " ++ l) ++ "\n" ++
        specJoinLines ((l2 :: ls2).map fun s => " - " ++ s))
    rw [show ("\n - " : String) = "\n" ++ " - " from rfl] at step ⊢
    simp only [String.append_assoc] at step ⊢
    exact step

/-- The engine's summary message, for a nonempty violation list, is
`"validation error:\n"` followed by the ` - <field_path>: <message>
[<constraint_id>]` lines joined by newlines. -/
theorem validationErrorMessage_eq_spec (vs : List Violation) (h : vs ≠ []) :
    validationErrorMessage vs =
      "validation error:\n" ++ specJoinLines (vs.map fun v => " - " ++ violationLine v) := by
  cases vs with
  | nil => exact absurd rfl h
  | cons v vs =>
    have key := joinAll_newline_lines "validation error:" (violationLine v)
      (vs.map violationLine)
    simp only [validationErrorMessage, List.map_cons, List.map_map] at key ⊢
    simpa [Function.comp] using key

/-! ### Claims -/

/-- C1: for every proto message on which the engine reports one or more
constraint violations (with the external detail serialization succeeding, as
it always does for well-formed violation payloads), `validate` returns a
status-coded error with code invalid-argument whose message is
`"validation error:\n"` followed by one line per violation of the form
` - <field_path>: <message> [<constraint_id>]`, and which carries exactly one
attached error detail containing every violation in engine-evaluation
order. -/
theorem claim1_invalid_argument_error (env : Env) (val : Validator) (m : ProtoMsg)
    (ve : ValidationError) (hval : val m = .err (.validationError ve))
    (hne : ve.violations ≠ []) (hmarshal : env.marshalOk ve.violations = true) :
    (validate env val (.protoMsg m)).err =
      some (.connectError
        { code := .invalidArgument,
          message := "validation error:\n" ++
            specJoinLines (ve.violations.map fun v => " - " ++ violationLine v),
          details := [{ violations := ve.violations }] }) := by
  have hmsg := validationErrorMessage_eq_spec ve.violations hne
  simp [validate, hval, buildInvalidArgument, asValidationError, newErrorDetail, hmarshal,
    goMessage, hmsg]

/-- Witness for C1 at a message violating two constraints: the summary message
and the single detail carrying both violations in order, matching the
repository's own test expectations. -/
theorem claim1_invalid_argument_error_witness :
    (validate envOkFix valFix (.protoMsg msgBad2)).err =
      some (.connectError
        { code := .invalidArgument,
          message := "validation error:\n - number: value is required [required]\n - number: value must be greater than 0 and less than 100 [int64.gt_lt]",
          details := [{ violations := [vioRequired, vioRange] }] }) := by
  have h := claim1_invalid_argument_error envOkFix valFix msgBad2
    { violations := [vioRequired, vioRange] } rfl (by decide) rfl
  exact h.trans (by decide)

/-- C2: the wrapped unary function returns the structured error and never
invokes the next stage when the inbound request fails validation; when the
request passes, the next stage runs exactly once with the request unchanged
and its outcome (response and error, including an unrelated next-stage error's
exact code and message) is returned unchanged — the response is never
validated, the only engine invocations being those on the request. -/
theorem claim2_unary_hook (env : Env) (val : Validator) (next : Request → UnaryOutcome)
    (req : Request) :
    (∀ e, (validate env val req.payload).err = some e →
        wrapUnary env val next req =
          { outcome := { response := none, err := some e }, nextCalls := [],
            engineCalls := (validate env val req.payload).engineCalls }) ∧
    ((validate env val req.payload).err = none →
        wrapUnary env val next req =
          { outcome := next req, nextCalls := [req],
            engineCalls := (validate env val req.payload).engineCalls }) := by
  constructor
  · intro e he
    simp [wrapUnary, he]
  · intro he
    simp [wrapUnary, he]

/-- Witness for C2: a rejected request short-circuits with the structured
error and no next-stage call; a valid request reaches the next stage exactly
once, and the next stage's unrelated internal error is returned unchanged. -/
theorem claim2_unary_hook_witness :
    wrapUnary envOkFix valFix nextInternalErr { payload := .protoMsg msgBad } =
      { outcome := { response := none, err := some invalidArgFix }, nextCalls := [],
        engineCalls := [msgBad] } ∧
    wrapUnary envOkFix valFix nextInternalErr { payload := .protoMsg msgOk } =
      { outcome := nextInternalErr { payload := .protoMsg msgOk },
        nextCalls := [{ payload := .protoMsg msgOk }], engineCalls := [msgOk] } :=
  ⟨(claim2_unary_hook envOkFix valFix nextInternalErr _).1 invalidArgFix rfl,
   (claim2_unary_hook envOkFix valFix nextInternalErr _).2 rfl⟩

/-- C3: the primary variant's streaming handler `Receive` delegates to the
underlying connection first (exactly one underlying call in every case); an
underlying error is returned unchanged with the validator never invoked; on a
successful underlying receive the decoded message is validated, a failure
replacing the successful outcome and a valid message leaving it unchanged. -/
theorem claim3_handler_receive_order (env : Env) (val : Validator) (conn : HandlerConn)
    (buf : AnyValue) :
    (∀ e, conn.recvErr = some e →
        (streamingHandlerReceive env val conn buf).err = some e ∧
        (streamingHandlerReceive env val conn buf).engineCalls = [] ∧
        (streamingHandlerReceive env val conn buf).recvCalls = 1) ∧
    (conn.recvErr = none →
        (streamingHandlerReceive env val conn buf).err = (validate env val conn.recvMsg).err ∧
        (streamingHandlerReceive env val conn buf).engineCalls =
          (validate env val conn.recvMsg).engineCalls ∧
        (streamingHandlerReceive env val conn buf).recvCalls = 1) := by
  constructor
  · intro e he
    simp [streamingHandlerReceive, he]
  · intro he
    simp [streamingHandlerReceive, he]

/-- Witness for C3: an end-of-stream error from the underlying connection is
propagated unchanged without any engine invocation, and a successfully decoded
invalid message yields the validation outcome after exactly one underlying
receive. -/
theorem claim3_handler_receive_order_witness :
    ((streamingHandlerReceive envOkFix valFix handlerConnEOF (.protoMsg msgOk)).err =
        some (.plain "EOF") ∧
      (streamingHandlerReceive envOkFix valFix handlerConnEOF (.protoMsg msgOk)).engineCalls =
        [] ∧
      (streamingHandlerReceive envOkFix valFix handlerConnEOF (.protoMsg msgOk)).recvCalls = 1) ∧
    ((streamingHandlerReceive envOkFix valFix handlerConnDecodesBad (.protoMsg msgOk)).err =
        (validate envOkFix valFix (.protoMsg msgBad)).err ∧
      (streamingHandlerReceive envOkFix valFix handlerConnDecodesBad
          (.protoMsg msgOk)).engineCalls =
        (validate envOkFix valFix (.protoMsg msgBad)).engineCalls ∧
      (streamingHandlerReceive envOkFix valFix handlerConnDecodesBad
          (.protoMsg msgOk)).recvCalls = 1) :=
  ⟨(claim3_handler_receive_order envOkFix valFix handlerConnEOF (.protoMsg msgOk)).1
      (.plain "EOF") rfl,
   (claim3_handler_receive_order envOkFix valFix handlerConnDecodesBad (.protoMsg msgOk)).2 rfl⟩

/-- C4: the streaming client `Send` validates the message before transmission:
a validation failure returns the structured error with the underlying `Send`
never invoked, and a valid message is transmitted exactly once, unchanged,
with the underlying result (success or error) returned unchanged. -/
theorem claim4_client_send_gate (env : Env) (val : Validator) (conn : ClientConn)
    (msg : AnyValue) :
    (∀ e, (validate env val msg).err = some e →
        streamingClientSend env val conn msg =
          { err := some e, sent := [], engineCalls := (validate env val msg).engineCalls }) ∧
    ((validate env val msg).err = none →
        streamingClientSend env val conn msg =
          { err := conn.sendResult msg, sent := [msg],
            engineCalls := (validate env val msg).engineCalls }) := by
  constructor
  · intro e he
    simp [streamingClientSend, he]
  · intro he
    simp [streamingClientSend, he]

/-- Witness for C4: a rejected message is never transmitted; an accepted one
is transmitted exactly once and the underlying success is returned. -/
theorem claim4_client_send_gate_witness :
    streamingClientSend envOkFix valFix clientConnOk (.protoMsg msgBad) =
      { err := some invalidArgFix, sent := [], engineCalls := [msgBad] } ∧
    streamingClientSend envOkFix valFix clientConnOk (.protoMsg msgOk) =
      { err := none, sent := [.protoMsg msgOk], engineCalls := [msgOk] } :=
  ⟨(claim4_client_send_gate envOkFix valFix clientConnOk (.protoMsg msgBad)).1
      invalidArgFix rfl,
   (claim4_client_send_gate envOkFix valFix clientConnOk (.protoMsg msgOk)).2 rfl⟩

/-- C5: a value that is neither a protocol message nor a request envelope is
rejected by both variants with a plain (non-status-coded) error naming the
concrete runtime type encountered, and the engine is never invoked on it —
such a value is never silently accepted. -/
theorem claim5_type_mismatch (env : Env) (val : Validator) (tn : String) :
    validate env val (.otherVal tn) =
      { err := some (.plain ("message is not a proto.Message: " ++ typeNameOf (.otherVal tn))),
        engineCalls := [], unwraps := 0 } ∧
    validateP1 env val (.otherVal tn) =
      { err := some (.plain ("unsupported message type " ++ typeNameOf (.otherVal tn))),
        engineCalls := [], unwraps := 0 } :=
  ⟨rfl, rfl⟩

/-- C6: when the engine reports violations but serializing them into an error
detail fails, the status-coded error is still returned with code
invalid-argument and the same summary message, only with no detail attached —
the failure is swallowed rather than escalated. -/
theorem claim6_detail_best_effort (env : Env) (val : Validator) (m : ProtoMsg)
    (ve : ValidationError) (hval : val m = .err (.validationError ve))
    (hmarshal : env.marshalOk ve.violations = false) :
    (validate env val (.protoMsg m)).err =
      some (.connectError
        { code := .invalidArgument, message := validationErrorMessage ve.violations,
          details := [] }) := by
  simp [validate, hval, buildInvalidArgument, asValidationError, newErrorDetail, hmarshal,
    goMessage]

/-- Witness for C6: under an environment whose detail serialization always
fails the invalid-argument error still comes back, carrying zero details. -/
theorem claim6_detail_best_effort_witness :
    (validate envNoMarshal valFix (.protoMsg msgBad)).err =
      some (.connectError
        { code := .invalidArgument, message := validationErrorMessage [vioRange],
          details := [] }) :=
  claim6_detail_best_effort envNoMarshal valFix msgBad { violations := [vioRange] } rfl rfl

/-- C7: `NewInterceptor` without a validator option constructs the default
engine and fails exactly when that construction fails (returning no
interceptor); with `WithValidator` the supplied engine is the one held, shared
by the streaming hooks, and construction succeeds for every environment. -/
theorem claim7_construction (env : Env) :
    (∀ e, env.protovalidateNew = .error e → newInterceptor env [] = .error e) ∧
    (∀ v, env.protovalidateNew = .ok v → newInterceptor env [] = .ok { validator := some v }) ∧
    (∀ v, newInterceptor env [withValidator v] = .ok { validator := some v }) ∧
    (∀ (i : Interceptor) (cc : ClientConn) (hc : HandlerConn),
        (i.wrapStreamingClient cc).validator = i.validator ∧
        (i.wrapStreamingHandler hc).validator = i.validator) := by
  refine ⟨fun e he => ?_, fun v hv => ?_, fun v => rfl, fun i cc hc => ⟨rfl, rfl⟩⟩
  · simp [newInterceptor, he]
  · simp [newInterceptor, hv]

/-- Witness for C7: a failing default construction propagates its error; a
succeeding one holds the constructed engine; a supplied engine is held even
when default construction would fail, and both streaming hooks share it. -/
theorem claim7_construction_witness :
    newInterceptor envNewFails [] = .error (.plain "failed to build default validator") ∧
    newInterceptor envOkFix [] = .ok { validator := some valFix } ∧
    newInterceptor envNewFails [withValidator valFix] = .ok { validator := some valFix } ∧
    ((Interceptor.wrapStreamingClient { validator := some valFix } clientConnOk).validator =
        some valFix ∧
      (Interceptor.wrapStreamingHandler { validator := some valFix }
          handlerConnEOF).validator = some valFix) :=
  ⟨(claim7_construction envNewFails).1 (.plain "failed to build default validator") rfl,
   (claim7_construction envOkFix).2.1 valFix rfl,
   (claim7_construction envNewFails).2.2.1 valFix,
   (claim7_construction envNewFails).2.2.2 { validator := some valFix } clientConnOk
     handlerConnEOF⟩

/-- C8: a request envelope directly wrapping a protocol message is unwrapped
exactly one level before validation: the `P1` variant's `validate` performs
exactly one unwrap, invokes the engine on the directly wrapped message, and
returns the same error as validating that message directly; the primary
variant's unary hook likewise invokes the engine exactly on the message its
request envelope wraps. -/
theorem claim8_envelope_once (env : Env) (val : Validator) (m : ProtoMsg)
    (next : Request → UnaryOutcome) :
    validateP1 env val (.anyRequest (.protoMsg m)) =
      { err := (validateP1 env val (.protoMsg m)).err, engineCalls := [m], unwraps := 1 } ∧
    (wrapUnary env val next { payload := .protoMsg m }).engineCalls = [m] := by
  constructor
  · cases hv : val m <;> simp [validateP1, hv]
  · cases hv : val m <;> simp [wrapUnary, validate, hv]

/-- C9: whenever the engine's `Validate` returns any error at all, both
variants wrap it into a status-coded error with code invalid-argument whose
message is the engine error's own message; a detail is attached only for a
`ValidationError`, so a non-validation engine failure surfaces as an
invalid-argument error carrying zero details. -/
theorem claim9_engine_error_wrapping (env : Env) (val : Validator) (m : ProtoMsg) (e : GoError)
    (hval : val m = .err e) :
    (validate env val (.protoMsg m)).err = some (.connectError (buildInvalidArgument env e)) ∧
    (validateP1 env val (.protoMsg m)).err = some (.connectError (buildInvalidArgument env e)) ∧
    (buildInvalidArgument env e).code = .invalidArgument ∧
    (buildInvalidArgument env e).message = goMessage e ∧
    (asValidationError e = none → (buildInvalidArgument env e).details = []) := by
  refine ⟨by simp [validate, hval], by simp [validateP1, hval], ?_, ?_, fun hnv => ?_⟩
  · cases h : asValidationError e with
    | none => simp [buildInvalidArgument, h]
    | some ve =>
      simp only [buildInvalidArgument, h, newErrorDetail]
      split <;> rfl
  · cases h : asValidationError e with
    | none => simp [buildInvalidArgument, h]
    | some ve =>
      simp only [buildInvalidArgument, h, newErrorDetail]
      split <;> rfl
  · simp [buildInvalidArgument, hnv]

/-- Witness for C9: an internal engine failure (not a `ValidationError`)
surfaces from both variants as an invalid-argument error with its message and
no details. -/
theorem claim9_engine_error_wrapping_witness :
    (validate envOkFix valFix (.protoMsg msgBoom)).err =
      some (.connectError
        { code := .invalidArgument, message := "unable to compile constraints",
          details := [] }) ∧
    (validateP1 envOkFix valFix (.protoMsg msgBoom)).err =
      some (.connectError
        { code := .invalidArgument, message := "unable to compile constraints",
          details := [] }) := by
  have h := claim9_engine_error_wrapping envOkFix valFix msgBoom
    (.plain "unable to compile constraints") rfl
  exact ⟨h.1.trans (by decide), h.2.1.trans (by decide)⟩

/-- C10 counterexample: the two streaming handler `Receive` implementations
are not observationally equivalent — on a connection that successfully decodes
a constraint-violating message while the passed-in buffer is valid, the
primary variant returns a validation error and the `P1` variant returns
success; and on an invalid buffer the `P1` variant skips the underlying
`Receive` that the primary variant performs. -/
theorem claim10_receive_not_equivalent :
    (streamingHandlerReceive envOkFix valFix handlerConnDecodesBad (.protoMsg msgOk)).err ≠
      (streamingHandlerReceiveP1 envOkFix valFix handlerConnDecodesBad (.protoMsg msgOk)).err ∧
    (streamingHandlerReceive envOkFix valFix handlerConnDecodesOk (.protoMsg msgBad)).recvCalls ≠
      (streamingHandlerReceiveP1 envOkFix valFix handlerConnDecodesOk
        (.protoMsg msgBad)).recvCalls := by
  decide

/-- C10 amended: the two `Receive` implementations differ — the primary
variant validates the decoded message after a successful underlying receive
while the `P1` variant validates the passed-in buffer and never the decoded
message — but they return the same error outcome and invoke the underlying
`Receive` equally often (once) whenever both the buffer and the decoded
message pass validation. -/
theorem claim10_receive_agreement (env : Env) (val : Validator) (conn : HandlerConn)
    (buf : AnyValue) (hbuf : (validateP1 env val buf).err = none)
    (hmsg : (validate env val conn.recvMsg).err = none) :
    (streamingHandlerReceive env val conn buf).err =
      (streamingHandlerReceiveP1 env val conn buf).err ∧
    (streamingHandlerReceive env val conn buf).recvCalls =
      (streamingHandlerReceiveP1 env val conn buf).recvCalls := by
  cases h : conn.recvErr <;>
    simp [streamingHandlerReceive, streamingHandlerReceiveP1, h, hbuf, hmsg]

/-- Witness for the amended C10: with a valid buffer and a connection whose
decoded message is valid, both implementations agree (here both propagate the
underlying end-of-stream error after one underlying receive). -/
theorem claim10_receive_agreement_witness :
    (streamingHandlerReceive envOkFix valFix handlerConnEOF (.protoMsg msgOk)).err =
      (streamingHandlerReceiveP1 envOkFix valFix handlerConnEOF (.protoMsg msgOk)).err ∧
    (streamingHandlerReceive envOkFix valFix handlerConnEOF (.protoMsg msgOk)).recvCalls =
      (streamingHandlerReceiveP1 envOkFix valFix handlerConnEOF (.protoMsg msgOk)).recvCalls :=
  claim10_receive_agreement envOkFix valFix handlerConnEOF (.protoMsg msgOk) rfl rfl

end ConnectValidate
